import Mathlib

/-!
Shallow embedding of the dt-core perception nodes:
`packages/ground_projection/src/ground_projection_node.py` and
`packages/anti_instagram/src/anti_instagram_node.py`.

Numeric values are modelled over `ℚ` (the Python code computes over floats,
but every claim checked here concerns exact structural behaviour, not
floating-point rounding).  External library calls (`dt_computer_vision`,
`cv_bridge`, `cv2`) that are not part of this repository are modelled from
the spec; each such definition carries a doc comment saying so.
-/

namespace DTCore

/-- A pixel or 2-D point: an (x, y) pair of rationals. -/
abbrev Pixel := ℚ × ℚ

/-- A 3×3 rational matrix, row major. -/
structure Mat3 where
  m00 : ℚ
  m01 : ℚ
  m02 : ℚ
  m10 : ℚ
  m11 : ℚ
  m12 : ℚ
  m20 : ℚ
  m21 : ℚ
  m22 : ℚ
deriving DecidableEq

/-- Determinant of a 3×3 matrix. -/
def det3 (m : Mat3) : ℚ :=
  m.m00 * (m.m11 * m.m22 - m.m12 * m.m21)
    - m.m01 * (m.m10 * m.m22 - m.m12 * m.m20)
    + m.m02 * (m.m10 * m.m21 - m.m11 * m.m20)

/-- Inverse of a 3×3 matrix via the adjugate (junk when the determinant is 0,
matching the spec's stance that malformed intrinsics are a configuration
error, §4.1). -/
def inv3 (m : Mat3) : Mat3 :=
  let d := det3 m
  ⟨(m.m11 * m.m22 - m.m12 * m.m21) / d,
   (m.m02 * m.m21 - m.m01 * m.m22) / d,
   (m.m01 * m.m12 - m.m02 * m.m11) / d,
   (m.m12 * m.m20 - m.m10 * m.m22) / d,
   (m.m00 * m.m22 - m.m02 * m.m20) / d,
   (m.m02 * m.m10 - m.m00 * m.m12) / d,
   (m.m10 * m.m21 - m.m11 * m.m20) / d,
   (m.m01 * m.m20 - m.m00 * m.m21) / d,
   (m.m00 * m.m11 - m.m01 * m.m10) / d⟩

/-- `np.reshape(xs, (3, 3))`: succeeds exactly on 9-element data
(NumPy raises otherwise). -/
def reshape9 (xs : List ℚ) : Option Mat3 :=
  match xs with
  | [a, b, c, d, e, f, g, hh, i] => some ⟨a, b, c, d, e, f, g, hh, i⟩
  | _ => none

/-- `np.reshape(xs, (3, 4))`: succeeds exactly on 12-element data, giving
three rows of four (NumPy raises otherwise). -/
def reshape12 (xs : List ℚ) : Option (List (List ℚ)) :=
  match xs with
  | [a, b, c, d, e, f, g, hh, i, j, k, l] =>
      some [[a, b, c, d], [e, f, g, hh], [i, j, k, l]]
  | _ => none

/-- The camera model constructed at `cb_camera_info`
(ground_projection_node.py lines 106-113): width, height, intrinsics K,
distortion D, projection P, extrinsic homography H. -/
structure CameraModel where
  width : ℕ
  height : ℕ
  K : Mat3
  D : List ℚ
  P : List (List ℚ)
  H : Mat3
deriving DecidableEq

/-- Modelled from the spec: `dt_computer_vision.camera.types.Rectifier.rectify_pixel`
is not under src/.  Per §4.1 and §8 rectification removes lens distortion and,
for zero distortion coefficients, returns the pixel unchanged; the spec gives
no closed formula for the nonzero-distortion case and no claim here exercises
it (all concrete inputs below use D = 0), so the map is modelled as the
identity on pixels. -/
def rectify_pixel (_cam : CameraModel) (p : Pixel) : Pixel := p

/-- Modelled from the spec: `CameraModel.pixel2vector` of `dt_computer_vision`
is not under src/.  Per §4.1, `pixelToRay` transforms (u, v, 1) by the inverse
intrinsic matrix and keeps the x/y components. -/
def pixel2vector (cam : CameraModel) (p : Pixel) : ℚ × ℚ :=
  let i := inv3 cam.K
  (i.m00 * p.1 + i.m01 * p.2 + i.m02, i.m10 * p.1 + i.m11 * p.2 + i.m12)

/-- The ground projector constructed at `cb_camera_info` line 115; per §4.2 it
is built from (and shares) the camera model. -/
structure GroundProjector where
  camera : CameraModel
deriving DecidableEq

/-- Modelled from the spec: `GroundProjector.vector2ground` of
`dt_computer_vision` is not under src/.  Per §4.2 and the glossary, the
homography H maps the normalized image point (x, y, 1) to homogeneous ground
coordinates (a, b, c); a zero homogeneous denominator is the degenerate
"unprojectable point" condition, which must be signalled (here: `none`)
rather than yielding a bogus finite coordinate. -/
def vector2ground (gp : GroundProjector) (v : ℚ × ℚ) : Option (ℚ × ℚ) :=
  let hm := gp.camera.H
  let den := hm.m20 * v.1 + hm.m21 * v.2 + hm.m22
  if den = 0 then none
  else some ((hm.m00 * v.1 + hm.m01 * v.2 + hm.m02) / den,
             (hm.m10 * v.1 + hm.m11 * v.2 + hm.m12) / den)

/-- A received `duckietown_msgs.msg.Segment`: the wire-format endpoint data
(`pixels_normalized`, the endpoint pixel pair of 4 floats carried as two
2-float points, spec §3/§6) plus the color enum tag. -/
structure SegmentMsg where
  pixels_normalized : List (List ℚ)
  color : ℕ
deriving DecidableEq

/-- Endpoint extraction exactly as coded at lines 141-143 of
ground_projection_node.py: `l0, l1 = received_segment.pixels_normalized`
(a destructuring that needs exactly two elements, else ValueError), then
`p0 = Pixel(l0[0], l0[1])` and `p1 = Pixel(l1[2], l1[3])`.  `none` models a
Python exception escaping (unpacking error or IndexError). -/
def extractPixels (s : SegmentMsg) : Option (Pixel × Pixel) :=
  match s.pixels_normalized with
  | [l0, l1] =>
      match l0.get? 0, l0.get? 1, l1.get? 2, l1.get? 3 with
      | some ax, some ay, some bx, some by_ => some ((ax, ay), (bx, by_))
      | _, _, _, _ => none
  | _ => none

/-- A projected ground-plane segment as published (`_fill_point_msg` sets
z = 0, so each point is its (x, y) pair) with the color copied at line 157. -/
structure GroundSeg where
  p0 : ℚ × ℚ
  p1 : ℚ × ℚ
  color : ℕ
deriving DecidableEq

/-- One iteration of the loop at lines 138-159: extract both endpoints,
rectify each, convert to normalized coordinates, project to the ground, and
assemble the output segment carrying the input color.  `none` models a Python
exception escaping from within the iteration. -/
def projectSegment (cam : CameraModel) (gp : GroundProjector) (s : SegmentMsg) :
    Option GroundSeg :=
  match extractPixels s with
  | none => none
  | some (p0, p1) =>
      match vector2ground gp (pixel2vector cam (rectify_pixel cam p0)) with
      | none => none
      | some g0 =>
          match vector2ground gp (pixel2vector cam (rectify_pixel cam p1)) with
          | none => none
          | some g1 => some ⟨g0, g1, s.color⟩

/-- The whole loop of lines 138-159.  The Python `for` has no per-segment
error handling: an exception raised while processing any segment escapes the
callback before the `publish` at line 160, so nothing is published (`none`);
on success every segment is appended in order. -/
def processSegments (cam : CameraModel) (gp : GroundProjector) :
    List SegmentMsg → Option (List GroundSeg)
  | [] => some []
  | s :: rest =>
      match projectSegment cam gp s with
      | none => none
      | some g =>
          match processSegments cam gp rest with
          | none => none
          | some tl => some (g :: tl)

/-! ### Logging -/

/-- Severity levels used by the nodes (`self.log(...)` defaults to info,
`self.log(..., "warn")` is a warning, `self.logerr` an error). -/
inductive LogLevel
  | info
  | warn
  | err
deriving DecidableEq

/-- The log messages the two nodes emit, as an enumeration (the exact
format-string text is irrelevant to every claim). -/
inductive LogEvent
  | waitingForCameraInfo
  | firstSegmentsPublished
  | missingRobotCalibration
  | noCalibrationFound
  | calibrationParseError
  | cannotDecodeImage
  | waitingForFirstImage
deriving DecidableEq

/-- One log entry: a severity and a message. -/
abbrev Log := LogLevel × LogEvent

/-! ### Debug visualizer (`debug_image`, lines 208-322) -/

/-- A BGR color triple, as used by cv2. -/
abbrev BGR := ℕ × ℕ × ℕ

/-- The debug raster: a map from (column, row) to a BGR color.  The source
image is 400×400; coordinates outside that square are never drawn by the
source (a doc-level fact, not needed by any claim). -/
abbrev Img := ℤ × ℤ → BGR

/-- Whether the lattice point `p` lies on the closed straight segment from
`a` to `b` (exactly collinear and inside the bounding box). -/
def onSeg (a b p : ℤ × ℤ) : Bool :=
  decide ((b.1 - a.1) * (p.2 - a.2) = (b.2 - a.2) * (p.1 - a.1) ∧
    min a.1 b.1 ≤ p.1 ∧ p.1 ≤ max a.1 b.1 ∧
    min a.2 b.2 ≤ p.2 ∧ p.2 ≤ max a.2 b.2)

/-- Modelled from the spec: `cv2.line` is an external rasterizer.  It is
modelled as painting the lattice points of the segment from `a` to `b`
(points are (column, row) pairs, as in cv2); the exact raster set does not
matter to any claim, only which segments are drawn at all. -/
def cv2_line (img : Img) (a b : ℤ × ℤ) (c : BGR) : Img :=
  fun p => if onSeg a b p then c else img p

/-- Modelled from the spec: `cv2.putText` is an external glyph rasterizer.
It is modelled as painting the anchor point with the text color; no claim
touches the text pixels. -/
def cv2_putText (img : Img) (org : ℤ × ℤ) (c : BGR) : Img :=
  fun p => if p = org then c else img p

/-- The x coordinates of the vertical grid lines,
`np.arange(40, 361, 40)` (line 230). -/
def vlineXs : List ℤ := [40, 80, 120, 160, 200, 240, 280, 320, 360]

/-- The y coordinates of the horizontal grid lines,
`np.arange(20, 301, 40)` (line 265). -/
def hlineYs : List ℤ := [20, 60, 100, 140, 180, 220, 260, 300]

/-- The static background generated on the first `debug_image` call
(lines 224-301): a gray 128 canvas, the grid lines, the five coordinate
labels, and the three robot-marker lines, in source order. -/
def computeBg : Img :=
  let base : Img := fun _ => (128, 128, 128)
  let i1 := vlineXs.foldl (fun img v => cv2_line img (v, 20) (v, 300) (255, 255, 0)) base
  let i2 := cv2_putText i1 (120 - 25, 300 + 15) (255, 255, 0)
  let i3 := cv2_putText i2 (200 - 25, 300 + 15) (255, 255, 0)
  let i4 := cv2_putText i3 (280 - 25, 300 + 15) (255, 255, 0)
  let i5 := hlineYs.foldl (fun img hy => cv2_line img (40, hy) (360, hy) (255, 255, 0)) i4
  let i6 := cv2_putText i5 (2, 220 + 3) (255, 255, 0)
  let i7 := cv2_putText i6 (2, 300 + 3) (255, 255, 0)
  let i8 := cv2_line i7 (200 + 0, 300 - 20) (200 + 0, 300 + 0) (255, 0, 0)
  let i9 := cv2_line i8 (200 + 20, 300 - 20) (200 + 0, 300 + 0) (255, 0, 0)
  cv2_line i9 (200 - 20, 300 - 20) (200 + 0, 300 + 0) (255, 0, 0)

/-- Python `int()`: truncation of a rational toward zero. -/
def pyInt (q : ℚ) : ℤ := if 0 ≤ q then Int.floor q else Int.ceil q

/-- The ground-to-pixel map of lines 316-317: a ground point (x, y) in
meters is drawn at column `int(y * -400) + 200`, row `int(x * -400) + 300`
(cv2 points are (column, row) pairs). -/
def ground2pix (g : ℚ × ℚ) : ℤ × ℤ :=
  (pyInt (g.2 * (-400)) + 200, pyInt (g.1 * (-400)) + 300)

/-- Modelled from the spec: the `duckietown_msgs.msg.Segment` color constants
are not under src/; the spec (§3) fixes the small enum {WHITE, YELLOW, RED,
OTHER} and the standard message encodes WHITE = 0, YELLOW = 1, RED = 2. -/
def segWHITE : ℕ := 0

/-- Segment color tag YELLOW (see `segWHITE`). -/
def segYELLOW : ℕ := 1

/-- Segment color tag RED (see `segWHITE`). -/
def segRED : ℕ := 2

/-- The color map of line 304 with dict-`get` fallback of line 318:
`{WHITE: (255,255,255), RED: (0,0,255), YELLOW: (0,255,255)}`, any other
tag drawn black `(0,0,0)`. -/
def colorGet (c : ℕ) : BGR :=
  if c = segWHITE then (255, 255, 255)
  else if c = segRED then (0, 0, 255)
  else if c = segYELLOW then (0, 255, 255)
  else (0, 0, 0)

/-- The visibility filter of lines 310-313: a segment is drawn iff no
endpoint coordinate has absolute value exceeding 0.50 m
(`not np.any(np.abs([...]) > 0.50)`). -/
def visibleSeg (s : GroundSeg) : Bool :=
  decide (¬ (1/2 < |s.p0.1| ∨ 1/2 < |s.p0.2| ∨ 1/2 < |s.p1.1| ∨ 1/2 < |s.p1.2|))

/-- Drawing one segment of the loop at lines 309-320: draw the cv2 line
between the mapped endpoints in the mapped color iff the segment is
visible. -/
def renderSeg (img : Img) (s : GroundSeg) : Img :=
  if visibleSeg s then cv2_line img (ground2pix s.p0) (ground2pix s.p1) (colorGet s.color)
  else img

/-- The whole drawing loop over the batch (lines 309-320), starting from the
(copied) background. -/
def renderSegments (bg : Img) (gs : List GroundSeg) : Img :=
  gs.foldl renderSeg bg

/-- `debug_image` (lines 208-322) as a function of the cached background
slot `self.debug_img_bg` and the ground segment batch: on the first call
(`none`) the background is generated and cached; every call draws the
segments on `self.debug_img_bg.copy()`.  Returns (new cached background,
rendered image). -/
def debug_image (bg0 : Option Img) (gs : List GroundSeg) : Img × Img :=
  let bg := bg0.getD computeBg
  (bg, renderSegments bg gs)

/-- The evolution of the cached-background slot over a sequence of
`debug_image` calls, one per rendered batch. -/
def debugIter (bg0 : Option Img) (gss : List (List GroundSeg)) : Option Img :=
  gss.foldl (fun b gs => some (debug_image b gs).1) bg0

/-! ### Node state and callbacks -/

/-- An incoming `sensor_msgs.msg.CameraInfo`: width, height and the flat
K (9 floats), D, P (12 floats) arrays, as read at lines 99-111. -/
structure CameraInfoMsg where
  width : ℕ
  height : ℕ
  K : List ℚ
  D : List ℚ
  P : List ℚ
deriving DecidableEq

/-- The mutable state of `GroundProjectionNode` (lines 60-86): the homography
loaded at startup, the lazily constructed camera model and ground projector,
the two flags, and the cached debug background. -/
structure NodeState where
  homography : Mat3
  camera : Option CameraModel
  ground_projector : Option GroundProjector
  camera_info_received : Bool
  first_processing_done : Bool
  debug_img_bg : Option Img

/-- `cb_camera_info` (lines 89-116): when the flag is still unset, reshape
K and P (an exception here, `none`, leaves the state untouched and the flag
unset), build the camera model with the startup homography, build the ground
projector, and set the flag; when the flag is already set, skip construction
entirely and (re)set the flag. -/
def cb_camera_info (st : NodeState) (m : CameraInfoMsg) : Option NodeState :=
  if st.camera_info_received then
    some { st with camera_info_received := true }
  else
    match reshape9 m.K, reshape12 m.P with
    | some mK, some mP =>
        let cam : CameraModel := ⟨m.width, m.height, mK, m.D, mP, st.homography⟩
        some { st with
          camera := some cam
          ground_projector := some ⟨cam⟩
          camera_info_received := true }
    | _, _ => none

/-- Delivering a list of camera-info messages to the node in order; a
callback that raises (`none`) leaves the node state as it was (ROS logs the
exception and keeps dispatching). -/
def run_camera_info (st : NodeState) (msgs : List CameraInfoMsg) : NodeState :=
  msgs.foldl (fun s m => (cb_camera_info s m).getD s) st

/-- An incoming `duckietown_msgs.msg.SegmentList` (the header does not
affect any claim). -/
structure SegListMsg where
  segments : List SegmentMsg
deriving DecidableEq

/-- The observable outcome of one `lineseglist_cb` invocation: the node
state afterwards, what was published on `~lineseglist_out` and on the debug
topic, the log entries, and whether an exception escaped the callback. -/
structure CbOut where
  st : NodeState
  published : Option (List GroundSeg)
  debug_pub : Option Img
  logs : List Log
  errored : Bool

/-- `lineseglist_cb` (lines 118-171), with `numDebugConnections` standing
for `self.pub_debug_img.get_num_connections()`:
with the readiness flag unset, only a warning is logged (lines 170-171);
otherwise the batch is processed (an escaping exception publishes nothing
and changes no state), the result published, the first-processing log/flag
handled, and the debug image rendered and published only when a debug
consumer is connected. -/
def lineseglist_cb (st : NodeState) (msg : SegListMsg) (numDebugConnections : ℕ) :
    CbOut :=
  if st.camera_info_received then
    match st.camera, st.ground_projector with
    | some cam, some gp =>
        match processSegments cam gp msg.segments with
        | none => ⟨st, none, none, [], true⟩
        | some out =>
            let logs1 : List Log :=
              if st.first_processing_done then []
              else [(LogLevel.info, LogEvent.firstSegmentsPublished)]
            let st1 := { st with first_processing_done := true }
            if 0 < numDebugConnections then
              let r := debug_image st.debug_img_bg out
              ⟨{ st1 with debug_img_bg := some r.1 }, some out, some r.2, logs1, false⟩
            else
              ⟨st1, some out, none, logs1, false⟩
    | _, _ => ⟨st, none, none, [], true⟩
  else
    ⟨st, none, none, [(LogLevel.warn, LogEvent.waitingForCameraInfo)], false⟩

/-! ### Calibration loader (`load_extrinsics`, lines 173-206) -/

/-- What the filesystem holds at a calibration path: no file, a file YAML
cannot parse, or a parsed mapping carrying the 9-element homography array. -/
inductive FileStatus
  | absent
  | unparsable
  | parsed (h : List ℚ)
deriving DecidableEq

/-- The outcome of `load_extrinsics`: the returned homography if any, the
log entries, and whether the run is fatal for the process.  `fatal` models
lines 193-196 and 201-204: `rospy.signal_shutdown` is requested and the
function then fails anyway (the uncaught open error, resp. the read of the
never-assigned `calib_data` on the return line), so no homography is ever
returned on these paths. -/
structure LoadOut where
  result : Option (List ℚ)
  logs : List Log
  fatal : Bool
deriving DecidableEq

/-- `load_extrinsics` over the status of the robot-specific file and of the
default file: fall back to the default (with a warning) only when the robot
file is absent (lines 186-190); if the chosen file is absent, fatal
(lines 193-196); if it is unparsable, fatal (lines 198-204); otherwise
return its homography (line 206). -/
def load_extrinsics (robotFile defaultFile : FileStatus) : LoadOut :=
  let chosen : FileStatus × List Log :=
    match robotFile with
    | FileStatus.absent => (defaultFile, [(LogLevel.warn, LogEvent.missingRobotCalibration)])
    | other => (other, [])
  match chosen.1 with
  | FileStatus.absent =>
      ⟨none, chosen.2 ++ [(LogLevel.err, LogEvent.noCalibrationFound)], true⟩
  | FileStatus.unparsable =>
      ⟨none, chosen.2 ++ [(LogLevel.err, LogEvent.calibrationParseError)], true⟩
  | FileStatus.parsed hh => ⟨some hh, chosen.2, false⟩

/-! ### Anti-instagram node (`anti_instagram_node.py`) -/

/-- A decoded BGR image for the anti-instagram node: a list of BGR pixels
(the spatial layout is irrelevant to every claim). -/
abbrev AIImage := List (ℕ × ℕ × ℕ)

/-- A received `sensor_msgs.msg.CompressedImage`.  Modelled from the spec:
the `cv_bridge` decoder is external; a message either carries a decodable
payload or is corrupt, in which case `compressed_imgmsg_to_cv2` raises
ValueError (§7: decode failure of an underlying image payload). -/
structure CompressedImageMsg where
  payload : Option AIImage
deriving DecidableEq

/-- The Python exceptions that can escape the modelled anti-instagram code
paths. -/
inductive PyError
  | unboundLocalError
  | attributeError
deriving DecidableEq

/-- `cv_bridge.compressed_imgmsg_to_cv2` (modelled from the spec, see
`CompressedImageMsg`): returns the payload or fails. -/
def compressed_imgmsg_to_cv2 (m : CompressedImageMsg) : Option AIImage :=
  m.payload

/-- `decode_image_msg` (lines 64-70) as a function of `self.image_msg`:
on success the decoded image is returned; when the bridge raises ValueError
the handler only logs, and the `return image` line then reads the local
`image` that was never assigned, so an UnboundLocalError escapes to the
caller; calling the bridge on `None` (no stored message) raises outside the
`except ValueError` clause and also escapes. -/
def decode_image_msg (image_msg : Option CompressedImageMsg) :
    Except PyError AIImage × List Log :=
  match image_msg with
  | none => (Except.error PyError.attributeError, [])
  | some m =>
      match compressed_imgmsg_to_cv2 m with
      | some img => (Except.ok img, [])
      | none =>
          (Except.error PyError.unboundLocalError,
           [(LogLevel.info, LogEvent.cannotDecodeImage)])

/-- The running thresholds of the `AntiInstagram` estimator. -/
structure AIState where
  low : List ℕ
  high : List ℕ
deriving DecidableEq

/-- Modelled from the spec: `dt_computer_vision.anti_instagram.AntiInstagram`
is not under src/; per §1 it "only maintains running image-intensity
thresholds".  Modelled as recomputing the channel-wise minima and maxima of
the given image. -/
def aiUpdate (_old : AIState) (img : AIImage) : AIState :=
  ⟨[(img.map (·.1)).foldr min 255,
    (img.map (·.2.1)).foldr min 255,
    (img.map (·.2.2)).foldr min 255],
   [(img.map (·.1)).foldr max 0,
    (img.map (·.2.1)).foldr max 0,
    (img.map (·.2.2)).foldr max 0]⟩

/-- The mutable state of `AntiInstagramNode`: the latest stored image
message (the single-slot mailbox of `store_image_msg`) and the estimator
state. -/
structure AINodeState where
  image_msg : Option CompressedImageMsg
  ai : AIState
deriving DecidableEq

/-- `calculate_new_parameters` (lines 72-82): with no stored image, log and
return without publishing; otherwise decode (an escaping decode exception
propagates out of the timer callback: no update, no publish), update the
estimator and publish the new thresholds. -/
def calculate_new_parameters (st : AINodeState) :
    Except PyError (AINodeState × Option (List ℕ × List ℕ)) × List Log :=
  match st.image_msg with
  | none => (Except.ok (st, none), [(LogLevel.info, LogEvent.waitingForFirstImage)])
  | some _ =>
      match decode_image_msg st.image_msg with
      | (Except.error e, lg) => (Except.error e, lg)
      | (Except.ok img, lg) =>
          let ai1 := aiUpdate st.ai img
          (Except.ok ({ st with ai := ai1 }, some (ai1.low, ai1.high)), lg)

/-- One ROS timer tick around `calculate_new_parameters`: rospy catches an
exception escaping the callback, logs the traceback, and keeps the node
alive with its state untouched and nothing published. -/
def aiTimerTick (st : AINodeState) :
    AINodeState × Option (List ℕ × List ℕ) × List Log :=
  match calculate_new_parameters st with
  | (Except.ok (st1, pub), lg) => (st1, pub, lg)
  | (Except.error _, lg) => (st, none, lg)

/-! ### Concrete fixtures used by counterexamples and witnesses -/

/-- The identity 3×3 matrix. -/
def id3 : Mat3 := ⟨1, 0, 0, 0, 1, 0, 0, 0, 1⟩

/-- A homography whose third row is (1, 0, 0): the homogeneous denominator
for a normalized point (x, y) is x, so rays with x = 0 are degenerate. -/
def hDeg : Mat3 := ⟨1, 0, 0, 0, 1, 0, 1, 0, 0⟩

/-- A camera with identity intrinsics and the degenerate-capable homography
`hDeg`. -/
def camDeg : CameraModel :=
  ⟨640, 480, id3, [0, 0, 0, 0, 0], [[1, 0, 0, 0], [0, 1, 0, 0], [0, 0, 1, 0]], hDeg⟩

/-- The ground projector over `camDeg`. -/
def gpDeg : GroundProjector := ⟨camDeg⟩

/-- A camera with identity intrinsics and identity homography: every ray is
projectable and a pixel (x, y) grounds to (x, y). -/
def camId : CameraModel :=
  ⟨640, 480, id3, [0, 0, 0, 0, 0], [[1, 0, 0, 0], [0, 1, 0, 0], [0, 0, 1, 0]], id3⟩

/-- The ground projector over `camId`. -/
def gpId : GroundProjector := ⟨camId⟩

/-- A segment message whose second wire entry has four entries, so that the
indexing coded at line 143 succeeds and yields endpoints (a, b) and (c, d). -/
def sgWide (a b c d : ℚ) (col : ℕ) : SegmentMsg := ⟨[[a, b], [0, 0, c, d]], col⟩

/-- A 5-segment batch for `camDeg` in which exactly the third segment is
unprojectable (its first endpoint has x = 0). -/
def msg5 : SegListMsg :=
  ⟨[sgWide 1 2 3 4 0, sgWide 1 5 3 4 1, sgWide 0 1 3 4 2,
    sgWide 2 2 4 4 0, sgWide 1 1 2 2 1]⟩

/-- A ready node state holding `camDeg`. -/
def stReadyDeg : NodeState := ⟨hDeg, some camDeg, some gpDeg, true, false, none⟩

/-- A node state before any camera-info message. -/
def stNotReady : NodeState := ⟨id3, none, none, false, false, none⟩

/-- A well-formed concrete camera-info message with identity K. -/
def wMsgA : CameraInfoMsg :=
  ⟨4, 3, [1, 0, 0, 0, 1, 0, 0, 0, 1], [], [1, 0, 0, 0, 0, 1, 0, 0, 0, 0, 1, 0]⟩

/-- A second well-formed concrete camera-info message with contents
different from `wMsgA`. -/
def wMsgB : CameraInfoMsg :=
  ⟨8, 6, [2, 0, 1, 0, 2, 1, 0, 0, 1], [5, 5], [2, 0, 0, 0, 0, 2, 0, 0, 0, 0, 1, 0]⟩

/-- A concrete 2-segment batch, fully projectable under `camId`. -/
def segs2 : List SegmentMsg := [sgWide 1 2 3 4 0, sgWide 5 6 7 8 2]

/-- The ground batch `segs2` projects to under the identity camera. -/
def out2 : List GroundSeg := [⟨(1, 2), (3, 4), 0⟩, ⟨(5, 6), (7, 8), 2⟩]

/-- A ground segment lying 1 m ahead of the robot: outside the 0.5 m
visibility bound of the debug image. -/
def w9seg : GroundSeg := ⟨(1, 0), (1, 1/4), 5⟩

/-! ### Helper lemmas -/

/-- Inversion of one loop iteration: a produced output segment comes from a
successful extraction and two successful ground projections, and copies the
input color. -/
lemma projectSegment_inv {cam : CameraModel} {gp : GroundProjector}
    {s : SegmentMsg} {g : GroundSeg}
    (hg : projectSegment cam gp s = some g) :
    ∃ p0 p1, extractPixels s = some (p0, p1) ∧
      vector2ground gp (pixel2vector cam (rectify_pixel cam p0)) = some g.p0 ∧
      vector2ground gp (pixel2vector cam (rectify_pixel cam p1)) = some g.p1 ∧
      g.color = s.color := by
  unfold projectSegment at hg
  split at hg
  · exact absurd hg (by simp)
  next p0 p1 hex =>
    split at hg
    · exact absurd hg (by simp)
    next g0 h0 =>
      split at hg
      · exact absurd hg (by simp)
      next g1 h1 =>
        cases hg
        exact ⟨p0, p1, hex, h0, h1, rfl⟩

/-- A published batch has the input batch's length. -/
lemma processSegments_length {cam : CameraModel} {gp : GroundProjector} :
    ∀ {segs : List SegmentMsg} {out : List GroundSeg},
      processSegments cam gp segs = some out → out.length = segs.length := by
  intro segs
  induction segs with
  | nil => intro out h; simp only [processSegments, Option.some.injEq] at h; simp [← h]
  | cons s rest ih =>
      intro out h
      simp only [processSegments] at h
      split at h
      · exact absurd h (by simp)
      next g hp =>
        split at h
        · exact absurd h (by simp)
        next tl ht =>
          cases h
          simp [ih ht]

/-- Pointwise description of a published batch: entry i of the output is
exactly the successful projection of entry i of the input. -/
lemma processSegments_get? {cam : CameraModel} {gp : GroundProjector} :
    ∀ {segs : List SegmentMsg} {out : List GroundSeg},
      processSegments cam gp segs = some out →
      ∀ i, (segs.get? i).bind (projectSegment cam gp) = out.get? i := by
  intro segs
  induction segs with
  | nil =>
      intro out h i
      simp only [processSegments, Option.some.injEq] at h
      simp [← h]
  | cons s rest ih =>
      intro out h i
      simp only [processSegments] at h
      split at h
      · exact absurd h (by simp)
      next g hp =>
        split at h
        · exact absurd h (by simp)
        next tl ht =>
          cases h
          cases i with
          | zero => simpa using hp
          | succ n => simpa using ih ht n

/-- When the readiness flag is already set, `cb_camera_info` leaves the node
state exactly as it was. -/
lemma cb_camera_info_ready {st : NodeState} (m : CameraInfoMsg)
    (h : st.camera_info_received = true) :
    cb_camera_info st m = some st := by
  cases st
  simp_all [cb_camera_info]

/-- A segment filtered out by the visibility test draws nothing. -/
lemma renderSeg_invisible {s : GroundSeg} (hs : visibleSeg s = false) (img : Img) :
    renderSeg img s = img := by
  simp [renderSeg, hs]

/-- Iterating `debug_image` over a batch sequence while the cached slot is
already filled never changes the slot. -/
lemma debugIter_some (gss : List (List GroundSeg)) (bg : Img) :
    debugIter (some bg) gss = some bg := by
  induction gss with
  | nil => rfl
  | cons gs rest ih => simpa [debugIter, debug_image] using ih

/-- Python `int()` of an integer-valued rational is that integer. -/
lemma pyInt_intCast (k : ℤ) : pyInt (k : ℚ) = k := by
  unfold pyInt
  split <;> simp

/-! ### Claims -/

/-- C3: Camera Model construction is an idempotent one-way latch: the first
(well-formed) intrinsics message constructs the camera model and ground
projector from its contents and the startup homography and sets the
readiness flag; any later message, whatever its contents, leaves the node
state (camera model, ground projector, flag included) exactly unchanged, so
over any sequence of further messages the state is fixed and the flag never
leaves the ready state. -/
theorem C3_camera_latch :
    (∀ (st : NodeState) (m : CameraInfoMsg) (mK : Mat3) (mP : List (List ℚ)),
      st.camera_info_received = false →
      reshape9 m.K = some mK → reshape12 m.P = some mP →
      cb_camera_info st m = some { st with
        camera := some ⟨m.width, m.height, mK, m.D, mP, st.homography⟩
        ground_projector := some ⟨⟨m.width, m.height, mK, m.D, mP, st.homography⟩⟩
        camera_info_received := true }) ∧
    (∀ (st : NodeState) (m : CameraInfoMsg),
      st.camera_info_received = true → cb_camera_info st m = some st) ∧
    (∀ (st : NodeState) (msgs : List CameraInfoMsg),
      st.camera_info_received = true → run_camera_info st msgs = st) := by
  refine ⟨?_, ?_, ?_⟩
  · intro st m mK mP hf hK hP
    simp [cb_camera_info, hf, hK, hP]
  · intro st m h
    exact cb_camera_info_ready m h
  · intro st msgs h
    induction msgs with
    | nil => rfl
    | cons m rest ih =>
        show run_camera_info st (m :: rest) = st
        unfold run_camera_info
        simp only [List.foldl_cons, cb_camera_info_ready m h, Option.getD_some]
        exact ih

/-- Witness for C3 at concrete inputs: a not-ready node constructs the
camera from the first 9/12-element message, and a ready node is left
untouched by a second, different message and by a whole further sequence. -/
theorem C3_camera_latch_witness :
    (stNotReady.camera_info_received = false ∧
      reshape9 wMsgA.K = some id3 ∧
      reshape12 wMsgA.P = some [[1, 0, 0, 0], [0, 1, 0, 0], [0, 0, 1, 0]] ∧
      cb_camera_info stNotReady wMsgA = some { stNotReady with
        camera := some ⟨4, 3, id3, [], [[1, 0, 0, 0], [0, 1, 0, 0], [0, 0, 1, 0]], stNotReady.homography⟩
        ground_projector :=
          some ⟨⟨4, 3, id3, [], [[1, 0, 0, 0], [0, 1, 0, 0], [0, 0, 1, 0]], stNotReady.homography⟩⟩
        camera_info_received := true }) ∧
    (stReadyDeg.camera_info_received = true ∧
      cb_camera_info stReadyDeg wMsgB = some stReadyDeg) ∧
    run_camera_info stReadyDeg [wMsgB, wMsgA, wMsgB] = stReadyDeg := by
  refine ⟨⟨rfl, ?_, ?_, ?_⟩, ⟨rfl, ?_⟩, ?_⟩
  · norm_num [wMsgA, reshape9, id3]
  · norm_num [wMsgA, reshape12]
  · exact C3_camera_latch.1 stNotReady wMsgA id3 _ rfl
      (by norm_num [wMsgA, reshape9, id3]) (by norm_num [wMsgA, reshape12])
  · exact C3_camera_latch.2.1 stReadyDeg wMsgB rfl
  · exact C3_camera_latch.2.2 stReadyDeg [wMsgB, wMsgA, wMsgB] rfl

/-- C4: the calibration loader distinguishes exactly two failure modes:
robot file absent with a parsable default succeeds with the default's
homography after a warning (and is not fatal); robot file present always
skips the fallback; both files absent, or the chosen file unparsable,
produce an error log and the fatal configuration condition with no
homography returned. -/
theorem C4_calibration_loader :
    (∀ h : List ℚ, load_extrinsics FileStatus.absent (FileStatus.parsed h) =
      ⟨some h, [(LogLevel.warn, LogEvent.missingRobotCalibration)], false⟩) ∧
    (load_extrinsics FileStatus.absent FileStatus.absent =
      ⟨none, [(LogLevel.warn, LogEvent.missingRobotCalibration),
              (LogLevel.err, LogEvent.noCalibrationFound)], true⟩) ∧
    (∀ d : FileStatus, load_extrinsics FileStatus.unparsable d =
      ⟨none, [(LogLevel.err, LogEvent.calibrationParseError)], true⟩) ∧
    (load_extrinsics FileStatus.absent FileStatus.unparsable =
      ⟨none, [(LogLevel.warn, LogEvent.missingRobotCalibration),
              (LogLevel.err, LogEvent.calibrationParseError)], true⟩) ∧
    (∀ (h : List ℚ) (d : FileStatus),
      load_extrinsics (FileStatus.parsed h) d = ⟨some h, [], false⟩) := by
  exact ⟨fun _ => rfl, rfl, fun _ => rfl, rfl, fun _ _ => rfl⟩

/-- C7: before the first camera-intrinsics message, an incoming segment
batch is skipped: nothing is published on the output topic, no debug image
is emitted (whatever the number of debug consumers), the node state is
unchanged, the gap is logged as a single low-severity warning, and no
exception is raised. -/
theorem C7_not_ready_skips (st : NodeState) (msg : SegListMsg) (n : ℕ)
    (h : st.camera_info_received = false) :
    lineseglist_cb st msg n =
      ⟨st, none, none, [(LogLevel.warn, LogEvent.waitingForCameraInfo)], false⟩ := by
  simp [lineseglist_cb, h]

/-- Witness for C7: the concrete not-ready state skips a concrete batch even
with three debug consumers connected. -/
theorem C7_not_ready_skips_witness :
    stNotReady.camera_info_received = false ∧
    lineseglist_cb stNotReady msg5 3 =
      ⟨stNotReady, none, none, [(LogLevel.warn, LogEvent.waitingForCameraInfo)], false⟩ :=
  ⟨rfl, C7_not_ready_skips stNotReady msg5 3 rfl⟩

/-- C1, counterexample: in the ready state, on a concrete batch of 5
segments of which exactly 1 is unprojectable (the degenerate ray signalled
by the ground projector), the callback publishes nothing at all — an
exception escapes it — rather than publishing the 4 remaining segments. -/
theorem C1_counterexample :
    msg5.segments.countP (fun s => (projectSegment camDeg gpDeg s).isNone) = 1 ∧
    (lineseglist_cb stReadyDeg msg5 0).errored = true ∧
    ¬ ∃ out, (lineseglist_cb stReadyDeg msg5 0).published = some out ∧
      out.length = 4 := by
  have hps : processSegments camDeg gpDeg msg5.segments = none := by
    norm_num [processSegments, projectSegment, extractPixels, sgWide, msg5,
      vector2ground, pixel2vector, rectify_pixel, inv3, det3, camDeg, gpDeg,
      id3, hDeg, List.get?]
  refine ⟨?_, ?_, ?_⟩
  · norm_num [projectSegment, extractPixels, sgWide, msg5, vector2ground,
      pixel2vector, rectify_pixel, inv3, det3, camDeg, gpDeg, id3, hDeg,
      List.get?, List.countP, List.countP.go]
  · simp [lineseglist_cb, stReadyDeg, hps]
  · simp [lineseglist_cb, stReadyDeg, hps]

/-- C1, amended: the loop at lines 138-159 has no per-segment error
handling, so whenever any segment of the batch is unprojectable the whole
callback aborts and no output batch is published; only a batch in which
every segment projects is published (then in full and in order, see C6). -/
theorem C1_batch_aborts (cam : CameraModel) (gp : GroundProjector)
    (segs : List SegmentMsg) (h : ∃ s ∈ segs, projectSegment cam gp s = none) :
    processSegments cam gp segs = none := by
  induction segs with
  | nil => simp at h
  | cons s rest ih =>
      rcases h with ⟨s1, hmem, hnone⟩
      rcases List.mem_cons.1 hmem with heq | hrest
      · subst heq
        simp only [processSegments, hnone]
      · simp only [processSegments]
        split
        · rfl
        · rw [ih ⟨s1, hrest, hnone⟩]

/-- Witness for C1 (amended): the concrete 5-segment batch contains an
unprojectable segment, and the whole batch yields no published output. -/
theorem C1_batch_aborts_witness :
    (∃ s ∈ msg5.segments, projectSegment camDeg gpDeg s = none) ∧
    processSegments camDeg gpDeg msg5.segments = none := by
  have hbad : projectSegment camDeg gpDeg (sgWide 0 1 3 4 2) = none := by
    norm_num [projectSegment, extractPixels, sgWide, vector2ground,
      pixel2vector, rectify_pixel, inv3, det3, camDeg, gpDeg, id3, hDeg,
      List.get?]
  have hmem : sgWide 0 1 3 4 2 ∈ msg5.segments := by
    simp [msg5]
  exact ⟨⟨sgWide 0 1 3 4 2, hmem, hbad⟩,
    C1_batch_aborts camDeg gpDeg msg5.segments ⟨sgWide 0 1 3 4 2, hmem, hbad⟩⟩

/-- C2: the claim's extraction ("point A from flat indices 0 and 1, point B
from flat indices 2 and 3 of the 4-float endpoint pair") never happens in
the code: on the wire layout — the pair carried as two 2-float points — the
code's `Pixel(l1[2], l1[3])` reads positions 2 and 3 of the second 2-element
point, which do not exist, so extraction fails (IndexError) for every
segment; on a hypothetical widened second entry the code reads that entry's
positions 2 and 3, not the pair's first point B values. -/
theorem C2_endpoint_extraction_fails :
    (∀ (a b c d : ℚ) (col : ℕ),
      extractPixels ⟨[[a, b], [c, d]], col⟩ = none) ∧
    (∀ (a b c d e f : ℚ) (col : ℕ),
      extractPixels ⟨[[a, b], [c, d, e, f]], col⟩ = some ((a, b), (e, f))) := by
  exact ⟨fun _ _ _ _ _ => rfl, fun _ _ _ _ _ _ _ => rfl⟩

/-- C5: evaluating the anti-instagram node at a stored image message whose
payload cannot be decoded: `decode_image_msg` logs, but then raises an
UnboundLocalError that escapes to the caller (the `return image` reads a
local never assigned in the failure path), so the claim's "returns without
raising an exception that escapes" is false; the thresholds survive only
because the escaping exception kills the timer callback before `ai.update`,
as the tick evaluation shows (state retained, nothing published). -/
theorem C5_decode_failure_eval :
    decode_image_msg (some ⟨none⟩) =
      (Except.error PyError.unboundLocalError,
       [(LogLevel.info, LogEvent.cannotDecodeImage)]) ∧
    calculate_new_parameters ⟨some ⟨none⟩, ⟨[3, 4, 5], [250, 251, 252]⟩⟩ =
      (Except.error PyError.unboundLocalError,
       [(LogLevel.info, LogEvent.cannotDecodeImage)]) ∧
    aiTimerTick ⟨some ⟨none⟩, ⟨[3, 4, 5], [250, 251, 252]⟩⟩ =
      (⟨some ⟨none⟩, ⟨[3, 4, 5], [250, 251, 252]⟩⟩, none,
       [(LogLevel.info, LogEvent.cannotDecodeImage)]) := by
  exact ⟨rfl, rfl, rfl⟩

/-- C6: for every batch the callback actually publishes, the published
ground-space batch preserves order, color and one-to-one correspondence:
entry i of the output is the successful projection — rectification, then
pixel-to-ray, then ray-to-ground, applied to both extracted endpoints — of
entry i of the input, carrying its color tag unchanged, and the lengths
agree. -/
theorem C6_projection_order_color (cam : CameraModel) (gp : GroundProjector)
    (segs : List SegmentMsg) (out : List GroundSeg)
    (hout : processSegments cam gp segs = some out) :
    out.length = segs.length ∧
    (∀ i, (segs.get? i).bind (projectSegment cam gp) = out.get? i) ∧
    (∀ i s g, segs.get? i = some s → out.get? i = some g →
      g.color = s.color ∧
      ∃ p0 p1, extractPixels s = some (p0, p1) ∧
        vector2ground gp (pixel2vector cam (rectify_pixel cam p0)) = some g.p0 ∧
        vector2ground gp (pixel2vector cam (rectify_pixel cam p1)) = some g.p1) := by
  refine ⟨processSegments_length hout, processSegments_get? hout, ?_⟩
  intro i s g hs hg
  have h := processSegments_get? hout i
  rw [hs, hg] at h
  simp only [Option.some_bind] at h
  obtain ⟨p0, p1, hex, h0, h1, hcol⟩ := projectSegment_inv h
  exact ⟨hcol, p0, p1, hex, h0, h1⟩

/-- Witness for C6: a concrete 2-segment batch under the identity camera is
published as a concrete 2-segment ground batch, and the correspondence
properties hold for it. -/
theorem C6_projection_order_color_witness :
    processSegments camId gpId segs2 = some out2 ∧
    (out2.length = segs2.length ∧
      (∀ i, (segs2.get? i).bind (projectSegment camId gpId) = out2.get? i) ∧
      (∀ i s g, segs2.get? i = some s → out2.get? i = some g →
        g.color = s.color ∧
        ∃ p0 p1, extractPixels s = some (p0, p1) ∧
          vector2ground gpId (pixel2vector camId (rectify_pixel camId p0)) = some g.p0 ∧
          vector2ground gpId (pixel2vector camId (rectify_pixel camId p1)) = some g.p1)) := by
  have hout : processSegments camId gpId segs2 = some out2 := by
    norm_num [processSegments, projectSegment, extractPixels, sgWide, segs2,
      out2, vector2ground, pixel2vector, rectify_pixel, inv3, det3, camId,
      gpId, id3, List.get?]
  exact ⟨hout, C6_projection_order_color camId gpId segs2 out2 hout⟩

/-- C8: the visualizer's ground-to-pixel map (the one used for every drawn
segment endpoint) is the fixed affine map with the documented origin and
scale: ground (0, 0) lands on column 200, row 300, and moving k multiples of
1/400 m (2.5 mm) forward or lateral moves the pixel by exactly k rows or
columns (negated), i.e. meters are multiplied by -400 and offset by the
origin. -/
theorem C8_debug_mapping :
    ground2pix (0, 0) = (200, 300) ∧
    (∀ k : ℤ, ground2pix ((k : ℚ) / 400, 0) = (200, 300 - k)) ∧
    (∀ k : ℤ, ground2pix (0, (k : ℚ) / 400) = (200 - k, 300)) := by
  have hz : pyInt ((0 : ℚ) * (-400)) = 0 := by norm_num [pyInt]
  refine ⟨?_, ?_, ?_⟩
  · simp only [ground2pix, hz]
    norm_num
  · intro k
    have hk : ((k : ℚ) / 400) * (-400) = ((-k : ℤ) : ℚ) := by push_cast; ring
    simp only [ground2pix, hz, hk, pyInt_intCast]
    simp only [Prod.mk.injEq]
    omega
  · intro k
    have hk : ((k : ℚ) / 400) * (-400) = ((-k : ℤ) : ℚ) := by push_cast; ring
    simp only [ground2pix, hz, hk, pyInt_intCast]
    simp only [Prod.mk.injEq]
    omega

/-- C9: a ground segment with any endpoint coordinate of absolute value
above 0.5 m is skipped by the visualizer: drawing it alone returns the
background with every pixel unchanged, removing it from any batch does not
change the rendered image, and the primary published batch is unaffected by
visibility — entry i of a published batch is always the projection of input
entry i, visible or not. -/
theorem C9_out_of_scope_skipped (s : GroundSeg) (hs : visibleSeg s = false) :
    (∀ bg, renderSegments bg [s] = bg) ∧
    (∀ bg gs1 gs2,
      renderSegments bg (gs1 ++ s :: gs2) = renderSegments bg (gs1 ++ gs2)) ∧
    (∀ (cam : CameraModel) (gp : GroundProjector) segs out,
      processSegments cam gp segs = some out →
      ∀ i, (segs.get? i).bind (projectSegment cam gp) = out.get? i) := by
  refine ⟨?_, ?_, ?_⟩
  · intro bg
    simp [renderSegments, renderSeg_invisible hs]
  · intro bg gs1 gs2
    simp [renderSegments, List.foldl_append, renderSeg_invisible hs]
  · intro cam gp segs out h i
    exact processSegments_get? h i

/-- Witness for C9: a concrete segment 1 m ahead of the robot is invisible
and the skip properties hold for it. -/
theorem C9_out_of_scope_skipped_witness :
    visibleSeg w9seg = false ∧
    ((∀ bg, renderSegments bg [w9seg] = bg) ∧
      (∀ bg gs1 gs2,
        renderSegments bg (gs1 ++ w9seg :: gs2) = renderSegments bg (gs1 ++ gs2)) ∧
      (∀ (cam : CameraModel) (gp : GroundProjector) segs out,
        processSegments cam gp segs = some out →
        ∀ i, (segs.get? i).bind (projectSegment cam gp) = out.get? i)) := by
  have hv : visibleSeg w9seg = false := by
    simp only [visibleSeg, w9seg, decide_eq_false_iff_not, not_not]
    left
    norm_num
  exact ⟨hv, C9_out_of_scope_skipped w9seg hv⟩

/-- C10: the cached background is computed exactly once — the first
`debug_image` call fills the slot with the generated background, every later
call leaves the slot exactly as it was (all drawing happens on a copy), so
over any sequence of renders the slot stays the generated background — and
an unrecognized segment color tag is drawn with the black fallback display
color rather than failing. -/
theorem C10_background_cached (c : ℕ)
    (h0 : c ≠ segWHITE) (h1 : c ≠ segYELLOW) (h2 : c ≠ segRED) :
    (∀ gs, (debug_image none gs).1 = computeBg) ∧
    (∀ bg gs, (debug_image (some bg) gs).1 = bg) ∧
    (∀ gs0 gss, debugIter none (gs0 :: gss) = some computeBg) ∧
    colorGet c = (0, 0, 0) := by
  refine ⟨fun gs => rfl, fun bg gs => rfl, ?_, ?_⟩
  · intro gs0 gss
    simp only [debugIter, List.foldl_cons]
    exact debugIter_some gss computeBg
  · simp only [colorGet, if_neg h0, if_neg h2, if_neg h1]

/-- Witness for C10: color tag 7 is unrecognized and the cached-background
and fallback-color properties hold for it. -/
theorem C10_background_cached_witness :
    ((7 : ℕ) ≠ segWHITE ∧ (7 : ℕ) ≠ segYELLOW ∧ (7 : ℕ) ≠ segRED) ∧
    ((∀ gs, (debug_image none gs).1 = computeBg) ∧
      (∀ bg gs, (debug_image (some bg) gs).1 = bg) ∧
      (∀ gs0 gss, debugIter none (gs0 :: gss) = some computeBg) ∧
      colorGet 7 = (0, 0, 0)) :=
  ⟨⟨by decide, by decide, by decide⟩,
    C10_background_cached 7 (by decide) (by decide) (by decide)⟩

end DTCore
